import Mathlib

/-!
Verification of the monitoring-agent installation orchestrator and the
Prometheus scrape-target configuration manager.

The definitions below are shallow embeddings of the Python sources:
  * `src/prometheus/prometheus_manager.py` (`PrometheusConfigManager`)
  * `src/web-ui/app.py` (`create_dynamic_inventory`, `run_ansible_playbook`,
    the `/api/servers` record store glue)
  * `src/web-ui/security_utils.py` (validation / escaping helpers)
  * `src/web-ui/database.py` (`ServerDatabase.add_server` / `update_server`)

Python strings are modelled as `String`, Python dictionaries with a known key
set as structures whose fields are `Option`-typed when the source accesses
them with `dict.get` defaults, Python lists as `List`, and Python exceptions
as `Except PyErr`.  File-system and subprocess effects are made explicit:
functions return the value the source would write or pass on, and external
outcomes (process completion, timeout) are an explicit sum type.
-/

/-- Python exception classes that the embedded code can raise. -/
inductive PyErr where
  | keyError
  | indexError
  | valueError
deriving DecidableEq, Repr

/-! ### Character and string primitives

Ports of the Python `str` primitives actually used by the sources
(`str.lower`, `str.upper`, `str.strip`, `str.split('\n')`, `in`,
`'sep'.join`).  All operate via `String.data` so that every use is
kernel-computable on concrete inputs.  `Char.toLower`/`Char.toUpper` agree
with Python on ASCII, which is the only alphabet appearing in the embedded
literals. -/

/-- Python `s.lower()` (ASCII). -/
def lowerStr (s : String) : String := String.mk (s.data.map Char.toLower)

/-- Python `s.upper()` (ASCII). -/
def upperStr (s : String) : String := String.mk (s.data.map Char.toUpper)

/-- `p` occurs at the head of `l`. -/
def isPrefixL : List Char → List Char → Bool
  | [], _ => true
  | _ :: _, [] => false
  | p :: ps, c :: cs => p == c && isPrefixL ps cs

/-- Substring occurrence on character lists (Python `pat in s`). -/
def containsSub (pat : List Char) : List Char → Bool
  | [] => pat.isEmpty
  | c :: cs => isPrefixL pat (c :: cs) || containsSub pat cs

/-- Python `pat in s` for strings. -/
def strContains (s pat : String) : Bool :=
  containsSub pat.data s.data

/-- Python `s.split('\n')` on character lists: the maximal `'\n'`-free
segments, keeping empty segments (so the result is always non-empty). -/
def splitNL : List Char → List (List Char)
  | [] => [[]]
  | c :: cs =>
    match splitNL cs with
    | [] => [[]]
    | l :: ls => if c == '\n' then [] :: l :: ls else (c :: l) :: ls

/-- Python `s.split('\n')`. -/
def splitLines (s : String) : List String := (splitNL s.data).map String.mk

/-- Whitespace for Python `str.strip` (the ASCII cases). -/
def isPyWhitespace (c : Char) : Bool :=
  c == ' ' || c == '\t' || c == '\n' || c == '\r' || c == '\x0b' || c == '\x0c'

/-- Python `s.strip()`. -/
def trimStr (s : String) : String :=
  String.mk (((s.data.dropWhile isPyWhitespace).reverse.dropWhile isPyWhitespace).reverse)

/-- Python `sep.join(parts)`. -/
def joinSep (sep : String) : List String → String
  | [] => ""
  | [x] => x
  | x :: xs => x ++ sep ++ joinSep sep xs

/-! ### Target Configuration Manager (`src/prometheus/prometheus_manager.py`)

A Prometheus configuration document as manipulated by
`PrometheusConfigManager`.  Keys that the Python code reads with
`dict.get(..., default)` are `Option`-typed; an absent key is `none`. -/

/-- One entry of a job's `static_configs` list. -/
structure StaticConfig where
  targets : Option (List String)
  labels : Option (List (String × String))
deriving DecidableEq, Repr

/-- One entry of the document's `scrape_configs` list. -/
structure Job where
  job_name : Option String
  scheme : Option String
  static_configs : Option (List StaticConfig)
deriving DecidableEq, Repr

/-- The in-memory YAML document: top-level `global` mapping and the optional
`scrape_configs` key. -/
structure PromConfig where
  global : List (String × String)
  scrape_configs : Option (List Job)
deriving DecidableEq, Repr

/-- The node-information artifact consumed by `add_scrape_target`.  Every
field is read with `node_info.get(key, default)` in the source, hence
`Option`-typed here. -/
structure NodeInfo where
  hostname : Option String
  ip_address : Option String
  port : Option String
  instance_label : Option String
  scheme : Option String
  job_name : Option String
  os : Option String
deriving DecidableEq, Repr

/-- The `for job in config['scrape_configs']` loop of `add_scrape_target`:
find the first job whose `job_name` equals `jn` and splice the target into
its first `static_configs` block.  Mirrors the Python exceptions: a matching
job without a `static_configs` key raises `KeyError` at
`job['static_configs']`, and one whose `static_configs` list is empty raises
`IndexError` at `[0]`.  Returns the updated job list and the `job_exists`
flag. -/
def addLoop (jn target : String) : List Job → Except PyErr (List Job × Bool)
  | [] => .ok ([], false)
  | job :: rest =>
    if job.job_name = some jn then
      match job.static_configs with
      | none => .error .keyError
      | some [] => .error .indexError
      | some (sc :: scs) =>
        let targets := sc.targets.getD []
        if target ∈ targets then .ok (job :: rest, true)
        else
          .ok ({ job with
                   static_configs :=
                     some ({ sc with targets := some (targets ++ [target]) } :: scs) } :: rest,
                true)
    else
      match addLoop jn target rest with
      | .error e => .error e
      | .ok (rest', found) => .ok (job :: rest', found)

/-- `PrometheusConfigManager.add_scrape_target`, returning the document that
is handed to `save_config` (Python's boolean return is `save_config`'s disk
success, an I/O effect outside the document semantics). -/
def add_scrape_target (node_info : NodeInfo) (config : PromConfig) :
    Except PyErr PromConfig :=
  let jobs := config.scrape_configs.getD []
  let job_name := node_info.job_name.getD "node-exporter"
  let scheme := node_info.scheme.getD "https"
  let port := node_info.port.getD "9100"
  let hostname := node_info.hostname.getD "localhost"
  let ip_address := node_info.ip_address.getD "127.0.0.1"
  let instance_label := node_info.instance_label.getD (hostname ++ ":" ++ port)
  let target := ip_address ++ ":" ++ port
  match addLoop job_name target jobs with
  | .error e => .error e
  | .ok (jobs', job_exists) =>
    if job_exists then
      .ok { config with scrape_configs := some jobs' }
    else
      .ok { config with
              scrape_configs := some (jobs' ++
                [{ job_name := some job_name
                   scheme := some scheme
                   static_configs :=
                     some [{ targets := some [target]
                             labels := some [("instance", instance_label),
                                             ("hostname", hostname),
                                             ("os", node_info.os.getD "unknown")] }] }]) }

/-- The inner `for static_config in job.get('static_configs', [])` loop of
`remove_scrape_target`: find the first block whose `targets` list contains
`target`, remove the first occurrence, and report whether that block's list
became empty.  `none` when no block contains the target. -/
def removeFromStaticConfigs (target : String) :
    List StaticConfig → Option (List StaticConfig × Bool)
  | [] => none
  | sc :: rest =>
    let targets := sc.targets.getD []
    if target ∈ targets then
      let targets' := targets.erase target
      some ({ sc with targets := some targets' } :: rest, targets'.isEmpty)
    else
      (removeFromStaticConfigs target rest).map (fun p => (sc :: p.1, p.2))

/-- The outer `for job in config['scrape_configs']` loop of
`remove_scrape_target`, embedded as a zipper over (already-passed jobs,
remaining jobs).  When a block empties, the source executes
`config['scrape_configs'].remove(job)` on the list it is iterating over:
`list.remove` deletes the first element equal to the mutated job, and the
`for` iterator then skips the element that slid into the vacated slot — both
behaviours are reproduced here. -/
def removeLoop (jn target : String) :
    List Job → List Job → Bool → List Job × Bool
  | processed, [], updated => (processed, updated)
  | processed, job :: rest, updated =>
    if job.job_name = some jn then
      match removeFromStaticConfigs target (job.static_configs.getD []) with
      | none => removeLoop jn target (processed ++ [job]) rest updated
      | some (scs', becameEmpty) =>
        let job' := { job with static_configs := some scs' }
        if becameEmpty then
          match rest with
          | [] => ((processed ++ [job']).erase job', true)
          | r :: rest' =>
            removeLoop jn target (((processed ++ [job']).erase job') ++ [r]) rest' true
        else
          removeLoop jn target (processed ++ [job']) rest true
    else
      removeLoop jn target (processed ++ [job]) rest updated

/-- `PrometheusConfigManager.remove_scrape_target`.  The boolean is `updated`
(whether `save_config` is invoked at all); the document component is what the
saved file holds afterwards — unchanged on the `return False` paths. -/
def remove_scrape_target (ip_address port jn : String) (config : PromConfig) :
    Bool × PromConfig :=
  match config.scrape_configs with
  | none => (false, config)
  | some jobs =>
    let target := ip_address ++ ":" ++ port
    let (jobs', updated) := removeLoop jn target [] jobs false
    if updated then (true, { config with scrape_configs := some jobs' })
    else (false, config)

/-- Total number of target strings carried by a job, summed over all of its
`static_configs` blocks. -/
def jobTargetCount (j : Job) : Nat :=
  ((j.static_configs.getD []).map (fun sc => (sc.targets.getD []).length)).sum

/-! ### Security utilities (`src/web-ui/security_utils.py`) -/

/-- ASCII letter or digit (the regex class `[a-zA-Z0-9]`). -/
def isAsciiAlnum (c : Char) : Bool :=
  ('a' ≤ c && c ≤ 'z') || ('A' ≤ c && c ≤ 'Z') || ('0' ≤ c && c ≤ '9')

/-- ASCII digit. -/
def isAsciiDigit (c : Char) : Bool := '0' ≤ c && c ≤ '9'

/-- Split on a separator character, keeping empty segments. -/
def splitOnChar (sep : Char) : List Char → List (List Char)
  | [] => [[]]
  | c :: cs =>
    match splitOnChar sep cs with
    | [] => [[]]
    | l :: ls => if c == sep then [] :: l :: ls else (c :: l) :: ls

/-- Decimal value of a digit string. -/
def digitsToNat : List Char → Nat
  | [] => 0
  | c :: cs => (c.toNat - '0'.toNat) * 10 ^ cs.length + digitsToNat cs

/-- One dotted-quad octet as accepted by the Python standard library
`ipaddress` parser: non-empty, all digits, at most three of them, no leading
zero, value at most 255. -/
def validIPv4Octet (part : List Char) : Bool :=
  !part.isEmpty && part.length ≤ 3 && part.all isAsciiDigit &&
    (part.length == 1 || part.headD ' ' != '0') && digitsToNat part ≤ 255

/-- `validate_ip_address` — `ipaddress.ip_address(ip)` succeeding.  The
standard-library call is outside this repository; it is modelled here for
IPv4 dotted-quad literals, the only address shape reaching it in the claims
under verification (IPv6 literals are conservatively rejected). -/
def validate_ip_address (ip : String) : Bool :=
  let parts := splitOnChar '.' ip.data
  parts.length == 4 && parts.all validIPv4Octet

/-- The regex `^[a-zA-Z0-9]([a-zA-Z0-9\-_\.]*[a-zA-Z0-9])?$` of
`sanitize_hostname`: full match on a trimmed string. -/
def hostnamePattern (s : String) : Bool :=
  match s.data with
  | [] => false
  | [c] => isAsciiAlnum c
  | c :: rest =>
    isAsciiAlnum c && isAsciiAlnum (rest.getLastD ' ') &&
      rest.dropLast.all (fun d => isAsciiAlnum d || d == '-' || d == '_' || d == '.')

/-- `sanitize_hostname`: `None` (here `none`) for rejected input. -/
def sanitize_hostname (hostname : String) : Option String :=
  if hostname = "" then none
  else
    let hostname := trimStr hostname
    if validate_ip_address hostname then some hostname
    else if hostname.length > 253 then none
    else if hostnamePattern hostname then some hostname
    else none

/-- The regex `^[a-zA-Z0-9@]([a-zA-Z0-9\-_\.@]*[a-zA-Z0-9])?$` of
`sanitize_username`. -/
def usernamePattern (s : String) : Bool :=
  match s.data with
  | [] => false
  | [c] => isAsciiAlnum c || c == '@'
  | c :: rest =>
    (isAsciiAlnum c || c == '@') && isAsciiAlnum (rest.getLastD ' ') &&
      rest.dropLast.all (fun d => isAsciiAlnum d || d == '-' || d == '_' || d == '.' || d == '@')

/-- `sanitize_username`. -/
def sanitize_username (username : String) : Option String :=
  if username = "" then none
  else
    let username := trimStr username
    if username.length > 255 || username.length == 0 then none
    else if usernamePattern username then some username
    else none

/-- The `special_chars` list of `escape_ansible_value`. -/
def special_chars : List Char :=
  ['=', ':', '[', ']', ' ', '\n', '\r', '\t', '"', '\'', '\\']

/-- The net effect on one character of
`value.replace('\\', '\\\\').replace('"', '\\"')`: the first pass doubles
each backslash, the second prefixes each original double quote with a
backslash (the backslashes the first pass introduced are not quotes, so the
two passes compose characterwise). -/
def escChar (c : Char) : List Char :=
  if c == '\\' then ['\\', '\\'] else if c == '"' then ['\\', '"'] else [c]

/-- `value.replace('\\', '\\\\').replace('"', '\\"')` on character lists. -/
def escapeChars (l : List Char) : List Char := l.flatMap escChar

/-- `escape_ansible_value`. -/
def escape_ansible_value (value : String) : String :=
  if value.data.any (fun c => special_chars.contains c) then
    "\"" ++ String.mk (escapeChars value.data) ++ "\""
  else value

/-! ### Inventory Builder (`create_dynamic_inventory` in `src/web-ui/app.py`) -/

/-- `create_dynamic_inventory`, returning the content written to the
owner-only temporary inventory file (the source returns that file's path;
the path is an I/O artifact, the content is the semantic value).  A `None`
from either sanitizer raises `ValueError` in the source. -/
def create_dynamic_inventory (target_host target_username target_password os_type : String) :
    Except PyErr String :=
  match sanitize_hostname target_host with
  | none => .error .valueError
  | some sanitized_host =>
    match sanitize_username target_username with
    | none => .error .valueError
    | some sanitized_user =>
      let escaped_password :=
        if target_password ≠ "" then escape_ansible_value target_password else "\"\""
      let os_type' := if os_type ≠ "" then lowerStr os_type else "linux"
      let escaped_host := escape_ansible_value sanitized_host
      let escaped_user := escape_ansible_value sanitized_user
      if os_type' = "windows" then
        .ok ("[windows]\n" ++ escaped_host ++ " ansible_host=" ++ escaped_host ++
          " ansible_user=" ++ escaped_user ++ " ansible_password=" ++ escaped_password ++
          " ansible_connection=winrm ansible_port=5985 ansible_winrm_transport=basic" ++
          " ansible_winrm_server_cert_validation=ignore ansible_become=false" ++
          " ansible_winrm_read_timeout_sec=60 ansible_winrm_operation_timeout_sec=60" ++
          " ansible_winrm_connection_timeout=30\n")
      else
        .ok ("[linux]\n" ++ escaped_host ++ " ansible_host=" ++ escaped_host ++
          " ansible_user=" ++ escaped_user ++ " ansible_password=" ++ escaped_password ++
          " ansible_become=true ansible_become_pass=" ++ escaped_password ++
          " ansible_ssh_common_args=\"-o StrictHostKeyChecking=no" ++
          " -o UserKnownHostsFile=/dev/null -o ConnectTimeout=10\"\n")

/-! ### Process Supervisor (`run_ansible_playbook` in `src/web-ui/app.py`) -/

/-- The five error markers scanned for (lower-case; the scanned line is
lower-cased first, so matching is case-insensitive). -/
def errorKeywords : List String :=
  ["fatal:", "failed:", "error:", "unreachable:", "unable to"]

/-- The line (lower-cased) contains one of the error markers. -/
def keywordLine (line : String) : Bool :=
  errorKeywords.any (fun kw => strContains (lowerStr line) kw)

/-- The line (lower-cased) contains `deprecation`. -/
def deprecationLine (line : String) : Bool :=
  strContains (lowerStr line) "deprecation"

/-- The error-message extraction of `run_ansible_playbook` for a non-zero
return code: collect the stripped marker lines of
`stdout + '\n' + stderr` (deprecation lines skipped) and join the last
three with `' | '`; otherwise the last stripped non-empty non-deprecation
line; otherwise the synthesized fallback. -/
def extract_error_message (returncode : Int) (stdoutS stderrS : String) : String :=
  let all_output := stdoutS ++ "\n" ++ stderrS
  let output_lines := splitLines all_output
  let error_lines :=
    (output_lines.filter (fun line => keywordLine line && !deprecationLine line)).map trimStr
  if error_lines.isEmpty then
    match (output_lines.reverse.map trimStr).find?
        (fun line => line != "" && !deprecationLine line) with
    | some line => line
    | none => "Ansible playbook failed with return code " ++ toString returncode
  else
    joinSep " | " (error_lines.drop (error_lines.length - 3))

/-- The `stdout` field of the returned result: the last 50 lines when longer
than 50 lines, the raw text otherwise. -/
def stdout_display_fn (stdoutS : String) : String :=
  let stdout_lines := if stdoutS = "" then [] else splitLines stdoutS
  if stdout_lines.length > 50 then
    joinSep "\n" (stdout_lines.drop (stdout_lines.length - 50))
  else stdoutS

/-- The `stderr` field of the returned result.  Deprecation lines are
filtered out only when the return code is zero; a zero-exit display that is
deprecation-only noise (no `error`/`failed`) is cleared entirely. -/
def stderr_display_fn (returncode : Int) (stderrS : String) : String :=
  let stderr_lines := if stderrS = "" then [] else splitLines stderrS
  let stderr_lines :=
    if returncode = 0 then
      stderr_lines.filter (fun line =>
        !strContains (upperStr line) "DEPRECATION WARNING" &&
          !strContains (lowerStr line) "deprecation")
    else stderr_lines
  let disp :=
    if stderr_lines.length > 50 then
      joinSep "\n" (stderr_lines.drop (stderr_lines.length - 50))
    else if stderr_lines = [] then ""
    else joinSep "\n" stderr_lines
  if returncode = 0 ∧ disp ≠ "" then
    if strContains (lowerStr disp) "deprecation" &&
        !strContains (lowerStr disp) "error" &&
        !strContains (lowerStr disp) "failed" then ""
    else disp
  else disp

/-- The structured result dictionary of `run_ansible_playbook`.  The
`stdout_full`/`stderr_full` keys are absent (`none`) on the exception
paths, mirroring the source's three distinct return dictionaries. -/
structure PlaybookResult where
  success : Bool
  stdout : String
  stderr : String
  stdout_full : Option String
  stderr_full : Option String
  returncode : Int
  error : Option String
  prometheus_updated : Bool
  node_info : Option NodeInfo
deriving DecidableEq, Repr

/-- A completed external-installer invocation as captured by
`subprocess.run(..., capture_output=True, text=True)`. -/
structure CompletedProcess where
  returncode : Int
  stdout : String
  stderr : String
deriving DecidableEq, Repr

/-- The result dictionary built after `subprocess.run` returns.
`prometheus_updated` and `node_info` summarise the artifact-file search and
`PrometheusConfigManager` side effects, which depend on the file system and
are passed in explicitly. -/
def build_result (r : CompletedProcess) (prometheus_updated : Bool)
    (node_info : Option NodeInfo) : PlaybookResult :=
  { success := r.returncode == 0
    stdout := stdout_display_fn r.stdout
    stderr := stderr_display_fn r.returncode r.stderr
    stdout_full := some r.stdout
    stderr_full := some r.stderr
    returncode := r.returncode
    error := if r.returncode = 0 then none
             else some (extract_error_message r.returncode r.stdout r.stderr)
    prometheus_updated := prometheus_updated
    node_info := node_info }

/-- How the supervised invocation ends: normal completion (with the external
side-channel outcomes), `subprocess.TimeoutExpired`, or any other
exception. -/
inductive RunOutcome where
  | completed (r : CompletedProcess) (prometheus_updated : Bool) (node_info : Option NodeInfo)
  | timeoutExpired
  | otherException
deriving DecidableEq, Repr

/-- The wall-clock deadline passed to `subprocess.run` (seconds). -/
def ansible_timeout_seconds : Nat := 600

/-- `run_ansible_playbook` as a function of how the invocation ends: each
arm is the literal dictionary returned by the corresponding `return`
statement.  Totality of this function is the "no exception propagates"
guarantee: both exception handlers produce a structured result. -/
def run_ansible_playbook : RunOutcome → PlaybookResult
  | .completed r prometheus_updated node_info => build_result r prometheus_updated node_info
  | .timeoutExpired =>
    { success := false
      error := some "Installation timed out after 10 minutes. The process may still be running."
      stdout := ""
      stderr := "Timeout: Installation took longer than 10 minutes. Please check the target server manually."
      stdout_full := none
      stderr_full := none
      returncode := -1
      prometheus_updated := false
      node_info := none }
  | .otherException =>
    { success := false
      error := some "Ansible playbook execution failed. Please check the logs for details."
      stdout := ""
      stderr := ""
      stdout_full := none
      stderr_full := none
      returncode := -1
      prometheus_updated := false
      node_info := none }

/-! ### Server record store (`src/web-ui/database.py`, `src/web-ui/app.py`) -/

/-- The credential markers filtered out of every record before storage
(`['password', 'passwd', 'pwd', 'secret', 'credential']`). -/
def credentialMarkers : List String :=
  ["password", "passwd", "pwd", "secret", "credential"]

/-- A key counts as credential-bearing when its lower-cased form contains
one of the markers. -/
def isCredentialKey (k : String) : Bool :=
  credentialMarkers.any (fun m => strContains (lowerStr k) m)

/-- The dictionary comprehension shared by `ServerDatabase.add_server`,
`ServerDatabase.update_server` and the `/api/servers` POST handler:
drop every credential-bearing key. -/
def filter_credential_fields {α : Type} (record : List (String × α)) :
    List (String × α) :=
  record.filter (fun kv => !isCredentialKey kv.1)

/-- The column names of the row `ServerDatabase.add_server` inserts
(`INSERT OR REPLACE INTO servers (...)`). -/
def add_server_columns : List String :=
  ["id", "name", "ip", "port", "os", "ssh_user", "status", "metrics",
   "ansible_playbook", "prometheus_config", "updated_at"]

/-- The `allowed_fields` whitelist of `ServerDatabase.update_server`. -/
def update_allowed_fields : List String :=
  ["name", "ip", "port", "os", "ssh_user", "status", "metrics",
   "ansible_playbook", "prometheus_config"]

/-- The column names `ServerDatabase.update_server` writes for a given
`updates` dictionary: credential keys are dropped, the remainder is
intersected with `allowed_fields`, and `updated_at` is always refreshed. -/
def update_server_written_columns {α : Type} (updates : List (String × α)) :
    List String :=
  ((filter_credential_fields updates).filter
      (fun kv => update_allowed_fields.contains kv.1)).map Prod.fst ++ ["updated_at"]

/-! ### Abbreviations used to state the claims -/

/-- Spec-side reading of C1: the stripped marker lines of the combined
output — every line of `stdout + '\n' + stderr` that contains one of the
five markers and does not contain `deprecation` (case-insensitively). -/
def specCollectedErrorLines (stdoutS stderrS : String) : List String :=
  ((splitLines (stdoutS ++ "\n" ++ stderrS)).filter
    (fun line => keywordLine line && !deprecationLine line)).map trimStr

/-- The last `n` elements of a list. -/
def takeRight {α : Type} (n : Nat) (l : List α) : List α := (l.reverse.take n).reverse

/-- Spec-side reading of C1's fallback: the last stripped line of the
combined output that is non-empty and free of `deprecation`. -/
def specLastNonEmptyLine (stdoutS stderrS : String) : Option String :=
  (((splitLines (stdoutS ++ "\n" ++ stderrS)).map trimStr).filter
    (fun l => l != "" && !deprecationLine l)).getLast?

/-- The C2 scenario's `UNREACHABLE!` stderr line. -/
def c2U : String := "web1 | UNREACHABLE! => connection refused"

/-- The C2 scenario's first deprecation line. -/
def c2D1 : String := "[DEPRECATION WARNING]: legacy module path"

/-- The C2 scenario's second deprecation line. -/
def c2D2 : String := "[DEPRECATION WARNING]: old syntax"

/-- The C2 scenario's stderr: one `UNREACHABLE!` line and two deprecation
lines. -/
def c2Stderr : String := c2U ++ "\n" ++ c2D1 ++ "\n" ++ c2D2


/-- A job as rewritten by a merge into an existing job: the target string
appended to the `targets` of its first static-config block `sc` (with tail
blocks `scs`). -/
def appendTargetToFirstBlock (target : String) (J : Job) (sc : StaticConfig)
    (scs : List StaticConfig) : Job :=
  let sc' : StaticConfig := { sc with targets := some (sc.targets.getD [] ++ [target]) }
  { J with static_configs := some (sc' :: scs) }

/-- A static-config block with the first occurrence of the target string
removed from its `targets`. -/
def eraseTargetInBlock (target : String) (sc : StaticConfig) : StaticConfig :=
  { sc with targets := some ((sc.targets.getD []).erase target) }

/-- The artifact of the C6 scenario:
`{ip: "10.0.0.5", port: "9100", jobName: "node-exporter"}`. -/
def c6Node : NodeInfo :=
  { hostname := none, ip_address := some "10.0.0.5", port := some "9100",
    instance_label := none, scheme := none, job_name := some "node-exporter",
    os := none }

/-- The structural characters named by the specification (`= : [ ] space
newline tab quote backslash`, with carriage return among the newline
characters and both quote characters counted as quotes). -/
def structuralChar (c : Char) : Bool :=
  c = '=' || c = ':' || c = '[' || c = ']' || c = ' ' || c = '\n' ||
  c = '\r' || c = '\t' || c = '"' || c = '\'' || c = '\\'

/-- The windows inventory line up to the `ansible_password=` slot, for the
host `10.0.0.5` and user `admin`. -/
def c8InvPre : String :=
  "[windows]\n10.0.0.5 ansible_host=10.0.0.5 ansible_user=admin ansible_password="

/-- The windows inventory line after the `ansible_password=` slot. -/
def c8InvPost : String :=
  " ansible_connection=winrm ansible_port=5985 ansible_winrm_transport=basic ansible_winrm_server_cert_validation=ignore ansible_become=false ansible_winrm_read_timeout_sec=60 ansible_winrm_operation_timeout_sec=60 ansible_winrm_connection_timeout=30\n"

/-- A concrete static-config block used to exercise the C6 scenario. -/
def c6WitSc : StaticConfig := { targets := some ["192.168.0.7:9100"], labels := none }

/-- A concrete `node-exporter` job whose only block lacks `"10.0.0.5:9100"`. -/
def c6WitJob : Job :=
  { job_name := some "node-exporter", scheme := some "https",
    static_configs := some [c6WitSc] }

/-- A concrete document holding just `c6WitJob`. -/
def c6WitConfig : PromConfig :=
  { global := [("scrape_interval", "15s")], scrape_configs := some [c6WitJob] }

/-- Artifact used to exercise the frame property (C10). -/
def c10WitNode : NodeInfo :=
  { hostname := none, ip_address := some "10.1.2.3", port := some "9100",
    instance_label := none, scheme := none, job_name := some "demo-job",
    os := none }

/-- Document used to exercise the frame property (C10). -/
def c10WitConfig : PromConfig :=
  { global := [("scrape_interval", "15s")], scrape_configs := some [] }

/-- The job `add_scrape_target c10WitNode c10WitConfig` creates. -/
def c10WitNewJob : Job :=
  { job_name := some "demo-job"
    scheme := some "https"
    static_configs := some [{ targets := some ["10.1.2.3:9100"]
                              labels := some [("instance", "localhost:9100"),
                                              ("hostname", "localhost"),
                                              ("os", "unknown")] }] }

/-- The document `add_scrape_target c10WitNode c10WitConfig` produces. -/
def c10WitResult : PromConfig :=
  { global := [("scrape_interval", "15s")], scrape_configs := some [c10WitNewJob] }

/-- A document with the `scrape_configs` key set to the given job list. -/
def withJobs (config : PromConfig) (jobs : List Job) : PromConfig :=
  { config with scrape_configs := some jobs }

/-- A job with its `static_configs` key set to the given block list. -/
def jobWithBlocks (J : Job) (scs : List StaticConfig) : Job :=
  { J with static_configs := some scs }

/-- All target strings of a job, over all of its static-config blocks. -/
def jobAllTargets (j : Job) : List String :=
  (j.static_configs.getD []).flatMap (fun sc => sc.targets.getD [])

/-- A job with two static-config blocks, each holding one target — the C7
counterexample shape. -/
def c7CexJob : Job :=
  { job_name := some "node-exporter"
    scheme := some "https"
    static_configs := some [{ targets := some ["1.1.1.1:9100"], labels := none },
                            { targets := some ["2.2.2.2:9100"], labels := none }] }

/-- A document holding only `c7CexJob`. -/
def c7CexDoc : PromConfig :=
  { global := [("scrape_interval", "15s")], scrape_configs := some [c7CexJob] }

/-- A two-target block used to exercise the C7 removal paths. -/
def c7WitSc : StaticConfig :=
  { targets := some ["3.3.3.3:9100", "4.4.4.4:9100"], labels := none }

/-- A job holding `c7WitSc` as its only block. -/
def c7WitJob : Job :=
  { job_name := some "web", scheme := some "http", static_configs := some [c7WitSc] }

/-- A one-job document used to exercise the C7 removal paths. -/
def c7WitDoc : PromConfig :=
  { global := [("scrape_interval", "15s")], scrape_configs := some [c7WitJob] }

/-! ## Supporting lemmas about the upsert loop -/

/-- A pass of the upsert loop that found no matching job leaves the job list
untouched. -/
theorem addLoop_false_eq {jn target : String} :
    ∀ {jobs jobs' : List Job}, addLoop jn target jobs = .ok (jobs', false) → jobs' = jobs := by
  intro jobs
  induction jobs with
  | nil =>
    intro jobs' h
    simp [addLoop] at h
    exact h
  | cons job rest ih =>
    intro jobs' h
    simp only [addLoop] at h
    split at h
    · split at h
      · simp at h
      · simp at h
      · split at h <;> simp at h
    · split at h
      · simp at h
      · rename_i rest' found heq
        simp only [Except.ok.injEq, Prod.mk.injEq] at h
        obtain ⟨h1, h2⟩ := h
        subst h2
        exact h1.symm.trans (by rw [ih heq])

/-- Re-running the upsert loop on its own successful output is the
identity: the target it inserted is found on the second pass. -/
theorem addLoop_idem {jn target : String} :
    ∀ {jobs jobs' : List Job}, addLoop jn target jobs = .ok (jobs', true) →
      addLoop jn target jobs' = .ok (jobs', true) := by
  intro jobs
  induction jobs with
  | nil =>
    intro jobs' h
    simp [addLoop] at h
  | cons job rest ih =>
    intro jobs' h
    simp only [addLoop] at h
    split at h
    · rename_i hname
      split at h
      · simp at h
      · simp at h
      · rename_i sc scs hsc
        split at h
        · rename_i hmem
          simp only [Except.ok.injEq, Prod.mk.injEq, and_true] at h
          subst h
          simp [addLoop, hname, hsc, hmem]
        · rename_i hmem
          simp only [Except.ok.injEq, Prod.mk.injEq, and_true] at h
          subst h
          simp [addLoop, hname]
    · rename_i hname
      split at h
      · simp at h
      · rename_i rest' found heq
        simp only [Except.ok.injEq, Prod.mk.injEq] at h
        obtain ⟨h1, h2⟩ := h
        subst h2
        subst h1
        have := ih heq
        simp [addLoop, hname, this]

/-- After a pass that found no job, appending a matching job that already
carries the target makes the next pass a finding no-op. -/
theorem addLoop_append_matching {jn target : String} {J : Job}
    (hname : J.job_name = some jn) {sc : StaticConfig} {scs : List StaticConfig}
    (hsc : J.static_configs = some (sc :: scs)) (hmem : target ∈ sc.targets.getD []) :
    ∀ {jobs : List Job}, addLoop jn target jobs = .ok (jobs, false) →
      addLoop jn target (jobs ++ [J]) = .ok (jobs ++ [J], true) := by
  intro jobs
  induction jobs with
  | nil =>
    intro _
    simp [addLoop, hname, hsc, hmem]
  | cons job rest ih =>
    intro h
    simp only [addLoop] at h
    split at h
    · split at h
      · simp at h
      · simp at h
      · split at h <;> simp at h
    · rename_i hnm
      split at h
      · simp at h
      · rename_i rest' found heq
        simp only [Except.ok.injEq, Prod.mk.injEq] at h
        obtain ⟨h1, h2⟩ := h
        subst h2
        obtain rfl : rest' = rest := by
          simpa using h1
        have := ih heq
        simp [addLoop, hnm, this]

/-- C4: Upsert is idempotent — for every configuration document and every
node artifact, running `add_scrape_target` on the document it just produced
returns that document unchanged (so the total number of targets and the
affected job's target set are those after the first application); on the
exception paths both composites raise the same error.  Stated as equality of
the twice-applied and once-applied computations in the `Except` monad. -/
theorem c4_add_scrape_target_idempotent (node_info : NodeInfo) (config : PromConfig) :
    (add_scrape_target node_info config).bind (add_scrape_target node_info) =
      add_scrape_target node_info config := by
  simp only [add_scrape_target]
  cases h : addLoop (node_info.job_name.getD "node-exporter")
      (node_info.ip_address.getD "127.0.0.1" ++ ":" ++ node_info.port.getD "9100")
      (config.scrape_configs.getD []) with
  | error e => simp [h, Except.bind]
  | ok p =>
    obtain ⟨jobs', found⟩ := p
    cases found with
    | true =>
      have hidem := addLoop_idem h
      simp [h, Except.bind, hidem, add_scrape_target]
    | false =>
      have heq := addLoop_false_eq h
      subst heq
      have happ := addLoop_append_matching (J :=
          { job_name := some (node_info.job_name.getD "node-exporter")
            scheme := some (node_info.scheme.getD "https")
            static_configs :=
              some [{ targets := some [node_info.ip_address.getD "127.0.0.1" ++ ":" ++
                        node_info.port.getD "9100"]
                      labels := some [("instance",
                          node_info.instance_label.getD (node_info.hostname.getD "localhost" ++
                            ":" ++ node_info.port.getD "9100")),
                        ("hostname", node_info.hostname.getD "localhost"),
                        ("os", node_info.os.getD "unknown")] }] })
        rfl rfl (by simp) h
      simp [h, Except.bind, happ, add_scrape_target]

/-- When the first matching job sits after a run of non-matching jobs and
its first block lacks the target, the upsert loop appends the target to that
block and touches nothing else. -/
theorem addLoop_first_match {jn target : String} {J : Job} {sc : StaticConfig}
    {scs : List StaticConfig}
    (hJ : J.job_name = some jn) (hsc : J.static_configs = some (sc :: scs))
    (hnot : target ∉ sc.targets.getD []) :
    ∀ (pre : List Job), (∀ j ∈ pre, j.job_name ≠ some jn) → ∀ (post : List Job),
      addLoop jn target (pre ++ J :: post) =
        .ok (pre ++ appendTargetToFirstBlock target J sc scs :: post, true) := by
  intro pre
  induction pre with
  | nil =>
    intro _ post
    simp [addLoop, hJ, hsc, hnot, appendTargetToFirstBlock]
  | cons job rest ih =>
    intro hpre post
    have hnm : ¬ job.job_name = some jn := hpre job (by simp)
    have := ih (fun j hj => hpre j (by simp [hj])) post
    simp [addLoop, hnm, this]

/-- C6: upserting `{ip: "10.0.0.5", port: "9100", jobName: "node-exporter"}`
into a document whose first `node-exporter` job's first static-config block
lacks `"10.0.0.5:9100"` appends exactly that string to that block: the job
list keeps its length and the affected job's target count grows by one. -/
theorem c6_upsert_existing_job (config : PromConfig) (pre post : List Job) (J : Job)
    (sc : StaticConfig) (scs : List StaticConfig)
    (hjobs : config.scrape_configs = some (pre ++ J :: post))
    (hpre : ∀ j ∈ pre, j.job_name ≠ some "node-exporter")
    (hJ : J.job_name = some "node-exporter")
    (hsc : J.static_configs = some (sc :: scs))
    (hnot : "10.0.0.5:9100" ∉ sc.targets.getD []) :
    add_scrape_target c6Node config =
      .ok { config with
            scrape_configs := some (pre ++ appendTargetToFirstBlock "10.0.0.5:9100" J sc scs :: post) } ∧
    (pre ++ appendTargetToFirstBlock "10.0.0.5:9100" J sc scs :: post).length
      = (pre ++ J :: post).length ∧
    jobTargetCount (appendTargetToFirstBlock "10.0.0.5:9100" J sc scs)
      = jobTargetCount J + 1 := by
  refine ⟨?_, by simp, ?_⟩
  · have := addLoop_first_match hJ hsc hnot pre hpre post
    simp [add_scrape_target, c6Node, hjobs, this]
  · simp [jobTargetCount, hsc, appendTargetToFirstBlock]
    omega

/-- Witness for C6: the scenario theorem evaluated on a one-job document. -/
theorem c6_upsert_existing_job_witness :
    add_scrape_target c6Node c6WitConfig =
      .ok { c6WitConfig with
            scrape_configs := some [appendTargetToFirstBlock "10.0.0.5:9100" c6WitJob c6WitSc []] } ∧
    [appendTargetToFirstBlock "10.0.0.5:9100" c6WitJob c6WitSc []].length = [c6WitJob].length ∧
    jobTargetCount (appendTargetToFirstBlock "10.0.0.5:9100" c6WitJob c6WitSc [])
      = jobTargetCount c6WitJob + 1 := by
  simpa using c6_upsert_existing_job c6WitConfig [] [] c6WitJob c6WitSc []
    rfl (by simp) rfl rfl (by decide)

/-- Frame facts about one pass of the upsert loop: jobs with a different
name survive unchanged (as a filtered sublist), the length is preserved, and
a pass reporting "not found" saw no matching job at all. -/
theorem addLoop_frame {jn target : String} :
    ∀ {jobs jobs' : List Job} {found : Bool},
      addLoop jn target jobs = .ok (jobs', found) →
      jobs'.filter (fun j => !(j.job_name == some jn)) =
        jobs.filter (fun j => !(j.job_name == some jn)) ∧
      jobs'.length = jobs.length ∧
      (found = false → ∀ j ∈ jobs, j.job_name ≠ some jn) := by
  intro jobs
  induction jobs with
  | nil =>
    intro jobs' found h
    simp [addLoop] at h
    obtain ⟨rfl, rfl⟩ := h
    simp
  | cons job rest ih =>
    intro jobs' found h
    simp only [addLoop] at h
    split at h
    · rename_i hname
      split at h
      · simp at h
      · simp at h
      · rename_i sc scs hsc
        split at h
        · rename_i hmem
          simp only [Except.ok.injEq, Prod.mk.injEq] at h
          obtain ⟨rfl, rfl⟩ := h.symm.imp Eq.symm Eq.symm
          refine ⟨rfl, rfl, ?_⟩
          intro hfalse
          simp at hfalse
        · rename_i hmem
          simp only [Except.ok.injEq, Prod.mk.injEq] at h
          obtain ⟨h1, h2⟩ := h
          subst h1
          refine ⟨?_, by simp, ?_⟩
          · simp [List.filter_cons, hname]
          · intro hfalse
            exact absurd h2.symm (by simp [hfalse])
    · rename_i hname
      split at h
      · simp at h
      · rename_i rest' found' heq
        simp only [Except.ok.injEq, Prod.mk.injEq] at h
        obtain ⟨h1, h2⟩ := h
        subst h1
        subst h2
        obtain ⟨hfil, hlen, hnomatch⟩ := ih heq
        refine ⟨?_, by simp [hlen], ?_⟩
        · simp [List.filter_cons, hname, hfil]
        · intro hfalse j hj
          rcases List.mem_cons.mp hj with rfl | hj'
          · exact hname
          · exact hnomatch hfalse j hj'

/-- C10: the frame property of upsert.  Whenever `add_scrape_target`
produces a document (no exception), the `global` mapping is unchanged, every
job whose `job_name` differs from the artifact's job name is passed to
`save_config` untouched, and the job list either keeps its length (merge
into the single matching job) or grows by exactly one appended job — the
latter only when no job matched. -/
theorem c10_add_scrape_target_frame (node_info : NodeInfo) (config config' : PromConfig)
    (h : add_scrape_target node_info config = .ok config') :
    config'.global = config.global ∧
    ∃ jobs', config'.scrape_configs = some jobs' ∧
      jobs'.filter (fun j => !(j.job_name == some (node_info.job_name.getD "node-exporter"))) =
        (config.scrape_configs.getD []).filter
          (fun j => !(j.job_name == some (node_info.job_name.getD "node-exporter"))) ∧
      (jobs'.length = (config.scrape_configs.getD []).length ∨
        (jobs'.length = (config.scrape_configs.getD []).length + 1 ∧
          ∀ j ∈ config.scrape_configs.getD [],
            j.job_name ≠ some (node_info.job_name.getD "node-exporter"))) := by
  simp only [add_scrape_target] at h
  cases hl : addLoop (node_info.job_name.getD "node-exporter")
      (node_info.ip_address.getD "127.0.0.1" ++ ":" ++ node_info.port.getD "9100")
      (config.scrape_configs.getD []) with
  | error e =>
    rw [hl] at h
    simp at h
  | ok p =>
    obtain ⟨jobs', found⟩ := p
    rw [hl] at h
    obtain ⟨hfil, hlen, hnomatch⟩ := addLoop_frame hl
    cases found with
    | true =>
      simp only [if_true, Except.ok.injEq] at h
      subst h
      exact ⟨rfl, jobs', rfl, hfil, Or.inl hlen⟩
    | false =>
      simp only [Bool.false_eq_true, if_false, Except.ok.injEq] at h
      subst h
      have hjobs := addLoop_false_eq hl
      subst hjobs
      refine ⟨rfl, _, rfl, ?_, Or.inr ⟨by simp, hnomatch rfl⟩⟩
      simp [List.filter_append]

/-- Witness for C10: the frame theorem evaluated on a concrete append-case
run. -/
theorem c10_add_scrape_target_frame_witness :
    c10WitResult.global = c10WitConfig.global ∧
    ∃ jobs', c10WitResult.scrape_configs = some jobs' ∧
      jobs'.filter (fun j => !(j.job_name == some (c10WitNode.job_name.getD "node-exporter"))) =
        (c10WitConfig.scrape_configs.getD []).filter
          (fun j => !(j.job_name == some (c10WitNode.job_name.getD "node-exporter"))) ∧
      (jobs'.length = (c10WitConfig.scrape_configs.getD []).length ∨
        (jobs'.length = (c10WitConfig.scrape_configs.getD []).length + 1 ∧
          ∀ j ∈ c10WitConfig.scrape_configs.getD [],
            j.job_name ≠ some (c10WitNode.job_name.getD "node-exporter"))) :=
  c10_add_scrape_target_frame c10WitNode c10WitConfig c10WitResult rfl

/-! ## Supporting lemmas about the removal loops -/

/-- The inner removal loop finds nothing when no block holds the target. -/
theorem removeFromStaticConfigs_none {target : String} :
    ∀ {scs : List StaticConfig}, (∀ sc ∈ scs, target ∉ sc.targets.getD []) →
      removeFromStaticConfigs target scs = none := by
  intro scs
  induction scs with
  | nil => intro _; rfl
  | cons sc rest ih =>
    intro h
    have h1 : target ∉ sc.targets.getD [] := h sc (by simp)
    have h2 := ih (fun b hb => h b (by simp [hb]))
    simp [removeFromStaticConfigs, h1, h2]

/-- The inner removal loop erases the first occurrence in the first block
holding the target and reports whether that block emptied. -/
theorem removeFromStaticConfigs_decomp {target : String} {sc : StaticConfig}
    (hin : target ∈ sc.targets.getD []) :
    ∀ (scsPre : List StaticConfig), (∀ b ∈ scsPre, target ∉ b.targets.getD []) →
      ∀ (scsPost : List StaticConfig),
      removeFromStaticConfigs target (scsPre ++ sc :: scsPost) =
        some (scsPre ++ eraseTargetInBlock target sc :: scsPost,
          ((sc.targets.getD []).erase target).isEmpty) := by
  intro scsPre
  induction scsPre with
  | nil =>
    intro _ scsPost
    simp [removeFromStaticConfigs, hin, eraseTargetInBlock]
  | cons b rest ih =>
    intro h scsPost
    have h1 : target ∉ b.targets.getD [] := h b (by simp)
    have h2 := ih (fun x hx => h x (by simp [hx])) scsPost
    simp [removeFromStaticConfigs, h1, h2]

/-- The outer removal loop passes over non-matching jobs unchanged. -/
theorem removeLoop_no_match {jn target : String} :
    ∀ {rest : List Job}, (∀ j ∈ rest, j.job_name ≠ some jn) →
      ∀ (processed : List Job) (u : Bool),
      removeLoop jn target processed rest u = (processed ++ rest, u) := by
  intro rest
  induction rest with
  | nil => intro _ processed u; simp [removeLoop]
  | cons job r ih =>
    intro h processed u
    have h1 : ¬ job.job_name = some jn := h job (by simp)
    have h2 := ih (fun j hj => h j (by simp [hj])) (processed ++ [job]) u
    simp only [removeLoop, h1, if_false]
    rw [h2]
    simp

/-- The outer removal loop shifts a run of non-matching jobs from the
remaining side to the processed side. -/
theorem removeLoop_skip {jn target : String} :
    ∀ {pre : List Job}, (∀ j ∈ pre, j.job_name ≠ some jn) →
      ∀ (processed rest : List Job) (u : Bool),
      removeLoop jn target processed (pre ++ rest) u =
        removeLoop jn target (processed ++ pre) rest u := by
  intro pre
  induction pre with
  | nil => intro _ processed rest u; simp
  | cons job r ih =>
    intro h processed rest u
    have h1 : ¬ job.job_name = some jn := h job (by simp)
    have h2 := ih (fun j hj => h j (by simp [hj])) (processed ++ [job]) rest u
    simp only [List.cons_append, removeLoop, h1, if_false]
    rw [h2]
    simp

/-- Erasing `a` from `l ++ [a]` recovers `l` when `a` does not occur in
`l`. -/
theorem erase_append_singleton {α : Type} [DecidableEq α] (a : α) :
    ∀ (l : List α), (∀ x ∈ l, x ≠ a) → (l ++ [a]).erase a = l := by
  intro l
  induction l with
  | nil => simp
  | cons x xs ih =>
    intro h
    have hx : x ≠ a := h x (by simp)
    have := ih (fun y hy => h y (by simp [hy]))
    simp [List.erase_cons, hx, this]

/-- C7 (amended): behaviour of `remove_scrape_target` on a document whose
job names are unique.  It is a no-op returning `false` when the named job is
absent or holds the target in none of its blocks.  When the target occurs,
its first occurrence is erased from the first block containing it; if that
block's target list becomes empty the whole job entry is dropped — even when
other blocks of the same job still hold targets (the source tests only the
affected block, not the job's whole target set). -/
theorem c7_remove_scrape_target_amended (ip_address port jn : String) :
    (∀ config : PromConfig,
      (∀ j ∈ config.scrape_configs.getD [], j.job_name ≠ some jn) →
      remove_scrape_target ip_address port jn config = (false, config)) ∧
    (∀ (config : PromConfig) (pre post : List Job) (J : Job),
      config.scrape_configs = some (pre ++ J :: post) →
      (∀ j ∈ pre, j.job_name ≠ some jn) → (∀ j ∈ post, j.job_name ≠ some jn) →
      J.job_name = some jn →
      (∀ sc ∈ J.static_configs.getD [], (ip_address ++ ":" ++ port) ∉ sc.targets.getD []) →
      remove_scrape_target ip_address port jn config = (false, config)) ∧
    (∀ (config : PromConfig) (pre post : List Job) (J : Job)
        (scsPre scsPost : List StaticConfig) (sc : StaticConfig),
      config.scrape_configs = some (pre ++ J :: post) →
      (∀ j ∈ pre, j.job_name ≠ some jn) → (∀ j ∈ post, j.job_name ≠ some jn) →
      J.job_name = some jn →
      J.static_configs = some (scsPre ++ sc :: scsPost) →
      (∀ b ∈ scsPre, (ip_address ++ ":" ++ port) ∉ b.targets.getD []) →
      (ip_address ++ ":" ++ port) ∈ sc.targets.getD [] →
      (sc.targets.getD []).erase (ip_address ++ ":" ++ port) ≠ [] →
      remove_scrape_target ip_address port jn config =
        (true, withJobs config (pre ++
          jobWithBlocks J (scsPre ++ eraseTargetInBlock (ip_address ++ ":" ++ port) sc :: scsPost)
            :: post))) ∧
    (∀ (config : PromConfig) (pre post : List Job) (J : Job)
        (scsPre scsPost : List StaticConfig) (sc : StaticConfig),
      config.scrape_configs = some (pre ++ J :: post) →
      (∀ j ∈ pre, j.job_name ≠ some jn) → (∀ j ∈ post, j.job_name ≠ some jn) →
      J.job_name = some jn →
      J.static_configs = some (scsPre ++ sc :: scsPost) →
      (∀ b ∈ scsPre, (ip_address ++ ":" ++ port) ∉ b.targets.getD []) →
      (ip_address ++ ":" ++ port) ∈ sc.targets.getD [] →
      (sc.targets.getD []).erase (ip_address ++ ":" ++ port) = [] →
      remove_scrape_target ip_address port jn config =
        (true, withJobs config (pre ++ post))) := by
  refine ⟨?_, ?_, ?_, ?_⟩
  · intro config hno
    match hconf : config.scrape_configs with
    | none => simp [remove_scrape_target, hconf]
    | some jobs =>
      rw [hconf] at hno
      simp only [Option.getD_some] at hno
      have := @removeLoop_no_match jn (ip_address ++ ":" ++ port) jobs hno [] false
      simp [remove_scrape_target, hconf, this]
  · intro config pre post J hconf hpre hpost hJ habs
    have hnone := removeFromStaticConfigs_none habs
    have hskip := @removeLoop_skip jn (ip_address ++ ":" ++ port) pre hpre [] (J :: post) false
    have hrest := @removeLoop_no_match jn (ip_address ++ ":" ++ port) post hpost (pre ++ [J]) false
    have hloop : removeLoop jn (ip_address ++ ":" ++ port) [] (pre ++ J :: post) false =
        (pre ++ J :: post, false) := by
      rw [hskip]
      simp only [List.nil_append, removeLoop, hJ, if_true, hnone]
      rw [hrest]
      simp
    simp [remove_scrape_target, hconf, hloop]
  · intro config pre post J scsPre scsPost sc hconf hpre hpost hJ hscs hbpre hin hne
    have hdec := removeFromStaticConfigs_decomp hin scsPre hbpre scsPost
    have hskip := @removeLoop_skip jn (ip_address ++ ":" ++ port) pre hpre [] (J :: post) false
    have hrest := @removeLoop_no_match jn (ip_address ++ ":" ++ port) post hpost
      (pre ++ [jobWithBlocks J (scsPre ++ eraseTargetInBlock (ip_address ++ ":" ++ port) sc :: scsPost)]) true
    have hemp : ((sc.targets.getD []).erase (ip_address ++ ":" ++ port)).isEmpty = false := by
      simp [List.isEmpty_iff, hne]
    have hloop : removeLoop jn (ip_address ++ ":" ++ port) [] (pre ++ J :: post) false =
        (pre ++ jobWithBlocks J
            (scsPre ++ eraseTargetInBlock (ip_address ++ ":" ++ port) sc :: scsPost) :: post,
          true) := by
      rw [hskip]
      simp only [List.nil_append, removeLoop, hJ, if_true, hscs, Option.getD_some, hdec, hemp,
        Bool.false_eq_true, if_false]
      simp only [jobWithBlocks] at hrest
      rw [hJ] at hrest
      rw [hrest]
      simp [jobWithBlocks, hJ]
    simp [remove_scrape_target, hconf, hloop, withJobs]
  · intro config pre post J scsPre scsPost sc hconf hpre hpost hJ hscs hbpre hin hemp
    have hdec := removeFromStaticConfigs_decomp hin scsPre hbpre scsPost
    have hskip := @removeLoop_skip jn (ip_address ++ ":" ++ port) pre hpre [] (J :: post) false
    have hempb : ((sc.targets.getD []).erase (ip_address ++ ":" ++ port)).isEmpty = true := by
      simp [List.isEmpty_iff, hemp]
    have herase : (pre ++ [jobWithBlocks J
        (scsPre ++ eraseTargetInBlock (ip_address ++ ":" ++ port) sc :: scsPost)]).erase
          (jobWithBlocks J (scsPre ++ eraseTargetInBlock (ip_address ++ ":" ++ port) sc :: scsPost))
        = pre := by
      apply erase_append_singleton
      intro x hx hxe
      apply hpre x hx
      rw [hxe]
      simpa [jobWithBlocks] using hJ
    have hloop : removeLoop jn (ip_address ++ ":" ++ port) [] (pre ++ J :: post) false =
        (pre ++ post, true) := by
      rw [hskip]
      simp only [List.nil_append, removeLoop, hJ, if_true, hscs, Option.getD_some, hdec, hempb,
        if_true]
      simp only [jobWithBlocks] at herase
      rw [hJ] at herase
      cases post with
      | nil =>
        simpa using herase
      | cons r rest' =>
        have hrest := @removeLoop_no_match jn (ip_address ++ ":" ++ port) rest'
          (fun j hj => hpost j (by simp [hj])) (pre ++ [r]) true
        simp only [herase]
        rw [hrest]
        simp
    simp [remove_scrape_target, hconf, hloop, withJobs]

/-- C7 counterexample: removing `"1.1.1.1:9100"` from `c7CexDoc` drops the
whole `node-exporter` job entry although the job's target set still held
`"2.2.2.2:9100"` in its second block — the source tests only the affected
block for emptiness, so the claim's "job dropped only when its target set
becomes empty" (and the survival of the remaining target) fails. -/
theorem c7_remove_scrape_target_counterexample :
    remove_scrape_target "1.1.1.1" "9100" "node-exporter" c7CexDoc =
      (true, { global := [("scrape_interval", "15s")], scrape_configs := some [] }) ∧
    "2.2.2.2:9100" ∈ jobAllTargets c7CexJob ∧
    "2.2.2.2:9100" ≠ "1.1.1.1:9100" :=
  ⟨by decide, by decide, by decide⟩

/-- Witness for C7: the amended theorem evaluated on concrete documents —
an absent job is a no-op returning `false`, and an in-place removal that
leaves the block non-empty. -/
theorem c7_remove_scrape_target_amended_witness :
    remove_scrape_target "9.9.9.9" "9100" "absent-job" c7WitDoc = (false, c7WitDoc) ∧
    remove_scrape_target "3.3.3.3" "9100" "web" c7WitDoc =
      (true, withJobs c7WitDoc
        [jobWithBlocks c7WitJob [eraseTargetInBlock "3.3.3.3:9100" c7WitSc]]) :=
  ⟨(c7_remove_scrape_target_amended "9.9.9.9" "9100" "absent-job").1 c7WitDoc (by decide),
   (c7_remove_scrape_target_amended "3.3.3.3" "9100" "web").2.2.1 c7WitDoc [] [] c7WitJob
     [] [] c7WitSc rfl (by simp) (by simp) rfl rfl (by simp) (by decide) (by decide)⟩

/-! ## Claims about the Process Supervisor result -/

/-- C5: when the external installer invocation raises
`subprocess.TimeoutExpired` (the configured wall-clock deadline, 600
seconds, elapsed), `run_ansible_playbook` returns — rather than raising — a
structured result with `success = false`, the sentinel return code `-1`,
`prometheus_updated = false`, and an error message stating the operation may
still be running.  Totality of `run_ansible_playbook` over `RunOutcome` is
the "no exception propagates" guarantee. -/
theorem c5_timeout_result :
    ansible_timeout_seconds = 600 ∧
    (run_ansible_playbook .timeoutExpired).success = false ∧
    (run_ansible_playbook .timeoutExpired).returncode = -1 ∧
    (run_ansible_playbook .timeoutExpired).prometheus_updated = false ∧
    (run_ansible_playbook .timeoutExpired).error =
      some "Installation timed out after 10 minutes. The process may still be running." ∧
    ∃ msg, (run_ansible_playbook .timeoutExpired).error = some msg ∧
      strContains msg "may still be running" = true :=
  ⟨rfl, rfl, rfl, rfl, rfl,
   "Installation timed out after 10 minutes. The process may still be running.",
   rfl, by decide⟩

/-! ## Claims about the Inventory Builder -/

set_option maxRecDepth 16384

/-- C3 counterexample: for the request `{os: "windows", targetHost:
"10.0.0.5", targetUsername: "admin", targetSecret: "p@ss"}` the generated
inventory line *does* carry an `ansible_become` directive
(`ansible_become=false`), and the secret is *not* quote-wrapped: `'@'` is
not in the escaping routine's special-character list, so `p@ss` is
interpolated verbatim (followed by a space, i.e. unquoted). -/
theorem c3_windows_inventory_counterexample :
    escape_ansible_value "p@ss" = "p@ss" ∧
    ∃ inv, create_dynamic_inventory "10.0.0.5" "admin" "p@ss" "windows" = .ok inv ∧
      strContains inv "ansible_become" = true ∧
      strContains inv "ansible_password=p@ss " = true ∧
      strContains inv "ansible_password=\"" = false :=
  ⟨rfl, _, rfl, by decide, by decide, by decide⟩

/-- C3 (amended): for that request the inventory selects the WinRM
transport on port 5985, carries `ansible_become=false` (privilege
escalation explicitly disabled; no `ansible_become_pass`), and the secret
`p@ss` appears unquoted, since `'@'` is not a structural character. -/
theorem c3_windows_inventory_amended :
    ∃ inv, create_dynamic_inventory "10.0.0.5" "admin" "p@ss" "windows" = .ok inv ∧
      strContains inv "ansible_connection=winrm" = true ∧
      strContains inv "ansible_port=5985" = true ∧
      strContains inv "ansible_become=false" = true ∧
      strContains inv "ansible_become_pass" = false ∧
      strContains inv "ansible_password=p@ss " = true ∧
      escape_ansible_value "p@ss" = "p@ss" :=
  ⟨_, rfl, by decide, by decide, by decide, by decide, by decide, rfl⟩

/-- The escaping routine's special-character list coincides with the
specification's structural characters. -/
theorem contains_eq_structuralChar (c : Char) :
    special_chars.contains c = structuralChar c := by
  simp [special_chars, structuralChar, List.contains_cons, Bool.or_assoc]

/-- C8: `escape_ansible_value` returns the value quote-wrapped — with
internal backslashes and double quotes backslash-escaped — exactly when the
value contains a structural character, and returns it unchanged otherwise;
and in the generated inventory the secret occupies the `ansible_password=`
slot as this escaped form, so a secret holding a structural character never
appears there unquoted. -/
theorem c8_escape_and_inventory_quoting (value : String) :
    escape_ansible_value value =
      (if value.data.any structuralChar then
        "\"" ++ String.mk (escapeChars value.data) ++ "\""
      else value) ∧
    (value.data.any structuralChar = true →
      escape_ansible_value value = "\"" ++ String.mk (escapeChars value.data) ++ "\"") ∧
    (value ≠ "" →
      create_dynamic_inventory "10.0.0.5" "admin" value "windows" =
        .ok (c8InvPre ++ escape_ansible_value value ++ c8InvPost)) := by
  have hchar : (fun c => special_chars.contains c) = structuralChar :=
    funext contains_eq_structuralChar
  have h1 : escape_ansible_value value =
      (if value.data.any structuralChar then
        "\"" ++ String.mk (escapeChars value.data) ++ "\""
      else value) := by
    unfold escape_ansible_value
    rw [hchar]
  refine ⟨h1, ?_, ?_⟩
  · intro hs
    rw [h1, hs]
    simp
  · intro hne
    have hh : sanitize_hostname "10.0.0.5" = some "10.0.0.5" := by decide
    have hu : sanitize_username "admin" = some "admin" := by decide
    have heh : escape_ansible_value "10.0.0.5" = "10.0.0.5" := by decide
    have heu : escape_ansible_value "admin" = "admin" := by decide
    have hwin : lowerStr "windows" = "windows" := by decide
    have hwne : ("windows" : String) ≠ "" := by decide
    simp only [create_dynamic_inventory, hh, hu, heh, heu, hwin, hwne, hne, ne_eq,
      not_false_eq_true, if_true, ite_true]
    have hpre : ("[windows]\n" ++ "10.0.0.5" ++ " ansible_host=" ++ "10.0.0.5" ++
        " ansible_user=" ++ "admin" ++ " ansible_password=" : String) = c8InvPre := by decide
    rw [hpre]
    simp only [String.append_assoc]
    congr 1

/-- Witness for C8: the escaping theorem evaluated on the secret `"p ss"`,
which contains a structural character (a space). -/
theorem c8_escape_and_inventory_quoting_witness :
    escape_ansible_value "p ss" =
      "\"" ++ String.mk (escapeChars ("p ss" : String).data) ++ "\"" ∧
    create_dynamic_inventory "10.0.0.5" "admin" "p ss" "windows" =
      .ok (c8InvPre ++ escape_ansible_value "p ss" ++ c8InvPost) :=
  ⟨(c8_escape_and_inventory_quoting "p ss").2.1 (by decide),
   (c8_escape_and_inventory_quoting "p ss").2.2 (by decide)⟩

/-! ## Claims about the server record store -/

/-- C9: credentials are never persisted.  The filter applied by
`add_server`, `update_server` and the `/api/servers` handler keeps exactly
the non-credential keys, so no key surviving it contains a credential
marker; moreover the columns `add_server` inserts and the columns
`update_server` can ever write are all credential-free. -/
theorem c9_credentials_never_persisted {α : Type} (record updates : List (String × α)) :
    (∀ kv, kv ∈ filter_credential_fields record ↔
      (kv ∈ record ∧ isCredentialKey kv.1 = false)) ∧
    (∀ kv ∈ filter_credential_fields record, isCredentialKey kv.1 = false) ∧
    (∀ k ∈ add_server_columns, isCredentialKey k = false) ∧
    (∀ k ∈ update_server_written_columns updates, isCredentialKey k = false) := by
  refine ⟨?_, ?_, by decide, ?_⟩
  · intro kv
    simp [filter_credential_fields, List.mem_filter]
  · intro kv hkv
    have := List.of_mem_filter hkv
    simpa using this
  · intro k hk
    simp only [update_server_written_columns, List.mem_append] at hk
    rcases hk with hk | hk
    · obtain ⟨kv, hkv, rfl⟩ := List.mem_map.mp hk
      have h2 := List.of_mem_filter (List.mem_of_mem_filter hkv)
      simpa using h2
    · simp only [List.mem_singleton] at hk
      subst hk
      decide

/-- Witness for C9: the filtering theorem evaluated on a record carrying a
`target_password` key. -/
theorem c9_credentials_never_persisted_witness :
    ("target_password", "hunter2") ∉
      filter_credential_fields [("name", "srv"), ("target_password", "hunter2")] ∧
    ("name", "srv") ∈
      filter_credential_fields [("name", "srv"), ("target_password", "hunter2")] ∧
    isCredentialKey "ssh_user" = false := by
  have h := c9_credentials_never_persisted
    [("name", "srv"), ("target_password", "hunter2")]
    ([("status", "UP")] : List (String × String))
  refine ⟨?_, ?_, by decide⟩
  · intro hmem
    have := h.2.1 _ hmem
    exact absurd this (by decide)
  · exact (h.1 ("name", "srv")).mpr ⟨by decide, by decide⟩

/-! ## Claims about output classification -/

/-- Searching a reversed list for the first hit is taking the last hit of
the original list. -/
theorem reverse_find?_eq_filter_getLast? {α : Type} (p : α → Bool) :
    ∀ l : List α, l.reverse.find? p = (l.filter p).getLast? := by
  intro l
  induction l using List.reverseRecOn with
  | nil => rfl
  | append_singleton l' a ih =>
    rw [List.reverse_append, List.reverse_singleton, List.singleton_append,
      List.filter_append]
    cases hpa : p a with
    | true =>
      simp [List.find?, hpa, List.filter, List.getLast?_concat]
    | false =>
      simp only [List.find?, hpa]
      rw [ih]
      simp [List.filter, hpa]

/-- Dropping all but the last `n` elements is `takeRight n`. -/
theorem drop_sub_eq_takeRight {α : Type} (n : Nat) (l : List α) :
    l.drop (l.length - n) = takeRight n l := by
  have h : (l.drop (l.length - n)).reverse = l.reverse.take (l.length - (l.length - n)) :=
    List.reverse_drop
  have h2 : l.length - (l.length - n) = min n l.length := by omega
  rw [h2] at h
  have h3 : l.reverse.take (min n l.length) = l.reverse.take n := by
    rcases Nat.le_total n l.length with hle | hle
    · rw [Nat.min_eq_left hle]
    · rw [Nat.min_eq_right hle]
      rw [List.take_of_length_le (by simp [hle]),
        List.take_of_length_le (by simp [hle])]
  rw [h3] at h
  unfold takeRight
  rw [← h, List.reverse_reverse]

/-- The loop-based extraction equals its declarative description over the
spec-side readings. -/
theorem extract_error_message_spec (rc : Int) (stdoutS stderrS : String) :
    extract_error_message rc stdoutS stderrS =
      (if (specCollectedErrorLines stdoutS stderrS).isEmpty = true then
        (match specLastNonEmptyLine stdoutS stderrS with
         | some line => line
         | none => "Ansible playbook failed with return code " ++ toString rc)
      else joinSep " | " ((specCollectedErrorLines stdoutS stderrS).drop
          ((specCollectedErrorLines stdoutS stderrS).length - 3))) := by
  simp only [extract_error_message, specLastNonEmptyLine, specCollectedErrorLines]
  rw [List.map_reverse, reverse_find?_eq_filter_getLast?]

/-- C1: for every run that exits non-zero, the result's extracted error
message is: the last three stripped marker lines (non-deprecation lines of
the combined output containing `fatal:`/`failed:`/`error:`/`unreachable:`/
`unable to`, case-insensitively) joined by `' | '` when any exist; otherwise
the last stripped non-empty non-deprecation line of the combined output;
otherwise the synthesized `"Ansible playbook failed with return code N"`
(the spec's genericized "process failed with return code N"). -/
theorem c1_error_extraction (rc : Int) (stdoutS stderrS : String) (pu : Bool)
    (ni : Option NodeInfo) (h : rc ≠ 0) :
    ∃ msg, (build_result ⟨rc, stdoutS, stderrS⟩ pu ni).error = some msg ∧
      ((specCollectedErrorLines stdoutS stderrS ≠ [] ∧
         msg = joinSep " | " (takeRight 3 (specCollectedErrorLines stdoutS stderrS))) ∨
       (specCollectedErrorLines stdoutS stderrS = [] ∧
         specLastNonEmptyLine stdoutS stderrS = some msg) ∨
       (specCollectedErrorLines stdoutS stderrS = [] ∧
         specLastNonEmptyLine stdoutS stderrS = none ∧
         msg = "Ansible playbook failed with return code " ++ toString rc)) := by
  refine ⟨extract_error_message rc stdoutS stderrS, by simp [build_result, h], ?_⟩
  rw [extract_error_message_spec]
  by_cases hel : specCollectedErrorLines stdoutS stderrS = []
  · cases hfind : specLastNonEmptyLine stdoutS stderrS with
    | some l =>
      refine Or.inr (Or.inl ⟨hel, ?_⟩)
      rw [hel]
      rfl
    | none =>
      refine Or.inr (Or.inr ⟨hel, rfl, ?_⟩)
      rw [hel]
      rfl
  · left
    refine ⟨hel, ?_⟩
    have hne : (specCollectedErrorLines stdoutS stderrS).isEmpty = false := by
      simp [List.isEmpty_iff, hel]
    rw [hne]
    simp only [Bool.false_eq_true, if_false]
    rw [drop_sub_eq_takeRight]

/-- Witness for C1: the extraction theorem evaluated on a run with exit
code 2 and a single `fatal:` line on stderr. -/
theorem c1_error_extraction_witness :
    ∃ msg, (build_result ⟨2, "", "fatal: [h1]: FAILED! => boom"⟩ false none).error = some msg ∧
      ((specCollectedErrorLines "" "fatal: [h1]: FAILED! => boom" ≠ [] ∧
         msg = joinSep " | "
           (takeRight 3 (specCollectedErrorLines "" "fatal: [h1]: FAILED! => boom"))) ∨
       (specCollectedErrorLines "" "fatal: [h1]: FAILED! => boom" = [] ∧
         specLastNonEmptyLine "" "fatal: [h1]: FAILED! => boom" = some msg) ∨
       (specCollectedErrorLines "" "fatal: [h1]: FAILED! => boom" = [] ∧
         specLastNonEmptyLine "" "fatal: [h1]: FAILED! => boom" = none ∧
         msg = "Ansible playbook failed with return code " ++ toString (2 : Int))) :=
  c1_error_extraction 2 "" "fatal: [h1]: FAILED! => boom" false none (by decide)

/-- C2 counterexample: for exit code 2 with stderr consisting of one
`UNREACHABLE!` line and two deprecation lines, the extracted error message
does equal the `UNREACHABLE!` line alone, but the displayed stderr tail
still contains the deprecation lines: the deprecation filter runs only when
the return code is zero, so the claim's "deprecation lines appear neither
... nor in the displayed stderr tail" fails. -/
theorem c2_stderr_tail_counterexample :
    extract_error_message 2 "" c2Stderr = c2U ∧
    strContains c2U "UNREACHABLE!" = true ∧
    deprecationLine c2D1 = true ∧
    deprecationLine c2D2 = true ∧
    stderr_display_fn 2 c2Stderr = c2Stderr ∧
    strContains (stderr_display_fn 2 c2Stderr) "DEPRECATION WARNING" = true :=
  ⟨by decide, by decide, by decide, by decide, by decide, by decide⟩

/-- `splitNL` never returns the empty list. -/
theorem splitNL_ne_nil : ∀ xs : List Char, splitNL xs ≠ [] := by
  intro xs
  cases xs with
  | nil => simp [splitNL]
  | cons c cs =>
    simp only [splitNL]
    cases h : splitNL cs with
    | nil => simp
    | cons l ls =>
      cases hc : c == '\n' <;> simp

/-- A newline-free character list splits into itself. -/
theorem splitNL_no_nl : ∀ xs : List Char, ('\n' : Char) ∉ xs → splitNL xs = [xs] := by
  intro xs
  induction xs with
  | nil => intro _; rfl
  | cons c cs ih =>
    intro h
    have hc : ¬ c = '\n' := fun hcon => h (hcon ▸ List.mem_cons_self c cs)
    have hcs := ih (fun hmem => h (List.mem_cons_of_mem c hmem))
    simp [splitNL, hcs, hc]

/-- Splitting at an explicit newline after a newline-free head. -/
theorem splitNL_append : ∀ (xs ys : List Char), ('\n' : Char) ∉ xs →
    splitNL (xs ++ '\n' :: ys) = xs :: splitNL ys := by
  intro xs
  induction xs with
  | nil =>
    intro ys _
    simp only [List.nil_append, splitNL]
    cases h : splitNL ys with
    | nil => exact absurd h (splitNL_ne_nil ys)
    | cons l ls => simp
  | cons c cs ih =>
    intro ys h
    have hc : ¬ c = '\n' := fun hcon => h (hcon ▸ List.mem_cons_self c cs)
    have hcs := ih ys (fun hmem => h (List.mem_cons_of_mem c hmem))
    simp only [List.cons_append, splitNL, List.append_eq]
    rw [hcs]
    simp [hc]

/-- C2 (amended): for exit code 2 with stderr consisting of one line
containing `UNREACHABLE!` (no newline, stripped, non-empty, not a
deprecation line) followed by two deprecation lines, the extracted error
message equals the `UNREACHABLE!` line alone and the deprecation lines are
excluded from it; the displayed stderr tail, however, retains the whole
stderr — including the deprecation lines — because the deprecation filter
applies only to runs exiting 0. -/
theorem c2_unreachable_scenario_amended (u d1 d2 : String)
    (hu_nl : ('\n' : Char) ∉ u.data) (hd1_nl : ('\n' : Char) ∉ d1.data)
    (hd2_nl : ('\n' : Char) ∉ d2.data)
    (hu_trim : trimStr u = u) (hd1_trim : trimStr d1 = d1) (hd2_trim : trimStr d2 = d2)
    (hu_ne : u ≠ "")
    (_hu_unreach : strContains u "UNREACHABLE!" = true)
    (hu_nodep : deprecationLine u = false)
    (hd1_dep : deprecationLine d1 = true) (hd2_dep : deprecationLine d2 = true) :
    extract_error_message 2 "" (u ++ "\n" ++ d1 ++ "\n" ++ d2) = u ∧
    stderr_display_fn 2 (u ++ "\n" ++ d1 ++ "\n" ++ d2) = u ++ "\n" ++ d1 ++ "\n" ++ d2 := by
  have hnl : ("\n" : String).data = ['\n'] := rfl
  have hdataS : (u ++ "\n" ++ d1 ++ "\n" ++ d2).data =
      u.data ++ '\n' :: (d1.data ++ '\n' :: d2.data) := by
    simp [String.data_append, hnl]
  have hsplitS : splitLines (u ++ "\n" ++ d1 ++ "\n" ++ d2) = [u, d1, d2] := by
    unfold splitLines
    rw [hdataS, splitNL_append _ _ hu_nl, splitNL_append _ _ hd1_nl, splitNL_no_nl _ hd2_nl]
    rfl
  have hdata0 : ("" ++ "\n" ++ (u ++ "\n" ++ d1 ++ "\n" ++ d2)).data =
      ([] : List Char) ++ '\n' :: (u.data ++ '\n' :: (d1.data ++ '\n' :: d2.data)) := by
    simp [String.data_append, hnl]
  have hsplit0 : splitLines ("" ++ "\n" ++ (u ++ "\n" ++ d1 ++ "\n" ++ d2)) =
      ["", u, d1, d2] := by
    unfold splitLines
    rw [hdata0, splitNL_append _ _ (by simp), splitNL_append _ _ hu_nl,
      splitNL_append _ _ hd1_nl, splitNL_no_nl _ hd2_nl]
    rfl
  have hSne : (u ++ "\n" ++ d1 ++ "\n" ++ d2) ≠ "" := by
    intro hcon
    have := congrArg String.data hcon
    rw [hdataS] at this
    simp at this
  have hune : (u != "") = true := by simp [bne, hu_ne]
  have hkw0 : keywordLine "" = false := by decide
  have hdep0 : deprecationLine "" = false := by decide
  constructor
  · simp only [extract_error_message]
    rw [hsplit0]
    by_cases hk : keywordLine u = true
    · simp [List.filter_cons, hk, hkw0, hdep0, hu_nodep, hd1_dep, hd2_dep, hu_trim, joinSep]
    · have hk' : keywordLine u = false := by simpa using hk
      simp [List.filter_cons, hk', hkw0, hdep0, hu_nodep, hd1_dep, hd2_dep,
        hu_trim, hd1_trim, hd2_trim, List.find?, hune]
  · simp only [stderr_display_fn, hSne]
    rw [hsplitS]
    simp [hSne, joinSep, String.append_assoc]

/-- Witness for C2 (amended): the scenario theorem evaluated on the
concrete `UNREACHABLE!` line and deprecation lines. -/
theorem c2_unreachable_scenario_amended_witness :
    extract_error_message 2 "" (c2U ++ "\n" ++ c2D1 ++ "\n" ++ c2D2) = c2U ∧
    stderr_display_fn 2 (c2U ++ "\n" ++ c2D1 ++ "\n" ++ c2D2) =
      c2U ++ "\n" ++ c2D1 ++ "\n" ++ c2D2 :=
  c2_unreachable_scenario_amended c2U c2D1 c2D2 (by decide) (by decide) (by decide)
    (by decide) (by decide) (by decide) (by decide) (by decide) (by decide)
    (by decide) (by decide)
